import Mathlib

/-!
Verification development for the aimanager group service.

The definitions below are a shallow embedding of the Go sources:
`GroupService.CheckRateLimit`, `GroupService.IncrementGroupMonthlyStat`,
`GroupService.CreateGroup`, `GroupService.UpdateGroup`,
`GroupService.DeleteGroup`, `GroupService.validateAndCleanUpstreams`,
`isValidGroupName`, `isValidValidationEndpoint`, and the helpers they call.
Database tables are modelled as keyed maps / lists inside explicit state
records; GORM reads and writes are explicit state-passing operations.
Times are modelled as abstract instants (`Int`); `time.ParseInLocation` is an
abstract parameter `parseTime : String → Option Int` since it is Go library
code, not repository code.
-/

namespace AiManager

/-- Model of Go `strings.TrimSpace` (restricted to the Latin-1 white-space
characters; the repository only ever trims ASCII input). -/
def isGoSpace (c : Char) : Bool :=
  c = ' ' || c = '\t' || c = '\n' || c = Char.ofNat 11 || c = Char.ofNat 12 ||
    c = '\r' || c = Char.ofNat 0x85 || c = Char.ofNat 0xA0

/-- Model of Go `strings.TrimSpace`. -/
def trimSpace (s : String) : String :=
  String.mk (((s.data.dropWhile isGoSpace).reverse.dropWhile isGoSpace).reverse)

/-! ## Rate limiter state (models.GroupConfig, GroupHourlyStat, GroupMonthlyStat) -/

/-- The three `models.GroupConfig` fields read by `CheckRateLimit`; pointers
(`*int`, `*string`) become `Option`. -/
structure GroupConfig where
  maxRequestsPerHour : Option Int
  maxRequestsPerMonth : Option Int
  expiresAt : Option String
deriving DecidableEq

/-- A `models.GroupHourlyStat` row (unique key `(group_id, time)`). -/
structure GroupHourlyStat where
  groupID : Nat
  time : Int
  successCount : Int
  failureCount : Int
deriving DecidableEq

/-- A `models.GroupMonthlyStat` row (unique key `(group_id, month)`). -/
structure GroupMonthlyStat where
  groupID : Nat
  month : Int
  requestCount : Int
  successCount : Int
  failureCount : Int
deriving DecidableEq

/-- The time instants `CheckRateLimit` derives from `time.Now()`:
`currentHour = now.Truncate(time.Hour)`,
`currentMonth = time.Date(y, m, 1, 0, 0, 0, 0, loc)`,
`nextMonth = currentMonth.AddDate(0, 1, 0)`. -/
structure Clock where
  now : Int
  currentHour : Int
  currentMonth : Int
  nextMonth : Int

/-- `app_errors.RateLimitError`. -/
structure RateLimitError where
  reason : String
  limit : Int
  used : Int
  resetAt : Int
deriving DecidableEq

/-- The persisted state read by the rate limiter: the parsed `config` column of
the group row (`none` when the `First` fetch fails), and the two stat tables as
maps on their unique keys. -/
structure RateLimitDB where
  groupConfig : Nat → Option GroupConfig
  hourlyStat : Nat → Int → Option GroupHourlyStat
  monthlyStat : Nat → Int → Option GroupMonthlyStat

/-- `time.Hour` as an instant offset (one hour). -/
def hourDuration : Int := 3600

/-- `s.db.Select("config").First(&group, groupID)` followed by the JSON
round-trip into `models.GroupConfig` (a read: the state passes through). -/
def readGroupConfig (gid : Nat) (db : RateLimitDB) :
    Option GroupConfig × RateLimitDB :=
  (db.groupConfig gid, db)

/-- `s.db.Where("group_id = ? AND time = ?", gid, h).First(&hourlyStat)`. -/
def readHourlyStat (gid : Nat) (h : Int) (db : RateLimitDB) :
    Option GroupHourlyStat × RateLimitDB :=
  (db.hourlyStat gid h, db)

/-- `s.db.Where("group_id = ? AND month = ?", gid, m).First(&stat)`. -/
def readMonthlyStat (gid : Nat) (m : Int) (db : RateLimitDB) :
    Option GroupMonthlyStat × RateLimitDB :=
  (db.monthlyStat gid m, db)

/-- A `Create`/`Updates` on the monthly-stat table at unique key `(gid, m)`. -/
def writeMonthlyStat (gid : Nat) (m : Int) (st : GroupMonthlyStat)
    (db : RateLimitDB) : RateLimitDB :=
  { db with
    monthlyStat := fun g m' =>
      if g = gid ∧ m' = m then some st else db.monthlyStat g m' }

/-- Step 1 of `CheckRateLimit`: the expiry check.  Go:
`config.ExpiresAt != nil && *config.ExpiresAt != ""`, parse via
`time.ParseInLocation("2006-01-02 15:04:05", ...)`, deny when
`err == nil && now.After(expiresAt)`. -/
def expiryDenial (parseTime : String → Option Int) (clock : Clock)
    (cfg : GroupConfig) : Option RateLimitError :=
  match cfg.expiresAt with
  | some s =>
    if s ≠ "" then
      match parseTime s with
      | some e =>
        if clock.now > e then
          some { reason := "expired", limit := 0, used := 0, resetAt := e }
        else none
      | none => none
    else none
  | none => none

/-- Step 2 of `CheckRateLimit`: the hourly check.  Go: when
`*config.MaxRequestsPerHour > 0` and the `GroupHourlyStat` row for the current
hour is found, deny when `SuccessCount + FailureCount >= limit` with
`ResetAt = currentHour.Add(time.Hour)`. -/
def hourlyDenial (clock : Clock) (gid : Nat) (db : RateLimitDB)
    (cfg : GroupConfig) : Option RateLimitError :=
  match cfg.maxRequestsPerHour with
  | some l =>
    if 0 < l then
      match (readHourlyStat gid clock.currentHour db).1 with
      | some st =>
        let totalRequests := st.successCount + st.failureCount
        if l ≤ totalRequests then
          some { reason := "hourly_limit", limit := l, used := totalRequests,
                 resetAt := clock.currentHour + hourDuration }
        else none
      | none => none
    else none
  | none => none

/-- Step 3 of `CheckRateLimit`: the monthly check.  Go: when
`*config.MaxRequestsPerMonth > 0` and the `GroupMonthlyStat` row for the
current month is found, deny when `RequestCount >= limit` with
`ResetAt = currentMonth.AddDate(0, 1, 0)`. -/
def monthlyDenial (clock : Clock) (gid : Nat) (db : RateLimitDB)
    (cfg : GroupConfig) : Option RateLimitError :=
  match cfg.maxRequestsPerMonth with
  | some l =>
    if 0 < l then
      match (readMonthlyStat gid clock.currentMonth db).1 with
      | some st =>
        if l ≤ st.requestCount then
          some { reason := "monthly_limit", limit := l, used := st.requestCount,
                 resetAt := clock.nextMonth }
        else none
      | none => none
    else none
  | none => none

/-- `GroupService.CheckRateLimit`.  Returns `none` for allow, and threads the
database state through explicitly (the Go function only issues reads). -/
def checkRateLimit (parseTime : String → Option Int) (clock : Clock)
    (gid : Nat) (db : RateLimitDB) : Option RateLimitError × RateLimitDB :=
  match readGroupConfig gid db with
  | (none, db1) => (none, db1)
  | (some cfg, db1) =>
    match expiryDenial parseTime clock cfg with
    | some e => (some e, db1)
    | none =>
      match hourlyDenial clock gid db1 cfg with
      | some e => (some e, db1)
      | none =>
        match monthlyDenial clock gid db1 cfg with
        | some e => (some e, db1)
        | none => (none, db1)

/-- `GroupService.IncrementGroupMonthlyStat`: find the row for
`(groupID, currentMonth)`; when absent create
`{RequestCount: 1, SuccessCount/FailureCount: 1}`; otherwise atomically add 1
to `request_count` and to the matching outcome counter. -/
def incrementGroupMonthlyStat (clock : Clock) (gid : Nat) (isSuccess : Bool)
    (db : RateLimitDB) : RateLimitDB :=
  match (readMonthlyStat gid clock.currentMonth db).1 with
  | none =>
    writeMonthlyStat gid clock.currentMonth
      { groupID := gid, month := clock.currentMonth, requestCount := 1,
        successCount := if isSuccess then 1 else 0,
        failureCount := if isSuccess then 0 else 1 } db
  | some st =>
    writeMonthlyStat gid clock.currentMonth
      { st with
        requestCount := st.requestCount + 1,
        successCount := if isSuccess then st.successCount + 1 else st.successCount,
        failureCount := if isSuccess then st.failureCount else st.failureCount + 1 } db

/-! ## Group service: errors, validators, CreateGroup / UpdateGroup / DeleteGroup -/

/-- The distinct error sites of the group service; `I18nError` payloads are
identified by their i18n key. `configError`, `headerRulesError` and `dbError`
stand for the errors raised by `validateAndCleanConfig`,
`normalizeHeaderRules` and the transactional DB operations. -/
inductive GroupError where
  | invalidGroupName
  | invalidChannelType
  | invalidGroupType
  | testModelRequired
  | testModelEmpty
  | invalidUpstreams
  | invalidTestPath
  | aggregateNoModelRedirect
  | invalidModelRedirect
  | subGroupReferenced
  | notFound
  | configError
  | headerRulesError
  | deleteGroupCache
  | dbError
deriving DecidableEq

/-- Whether the error site raises `app_errors.ErrValidation`. -/
def GroupError.isValidation : GroupError → Bool
  | .invalidGroupName | .invalidChannelType | .invalidGroupType
  | .testModelRequired | .testModelEmpty | .invalidUpstreams
  | .invalidTestPath | .aggregateNoModelRedirect | .invalidModelRedirect
  | .subGroupReferenced => true
  | _ => false

/-- The character class `[a-z0-9_-]` of the group-name pattern. -/
def isGroupNameChar (c : Char) : Bool :=
  decide ('a' ≤ c ∧ c ≤ 'z') || decide ('0' ≤ c ∧ c ≤ '9') ||
    decide (c = '_') || decide (c = '-')

/-- `isValidGroupName`: the empty name is rejected; otherwise Go
`regexp.MatchString("^[a-z0-9_-]{1,100}$", name)` — an anchored whole-string
match of 1 to 100 characters of the class. -/
def isValidGroupName (name : String) : Bool :=
  if name = "" then false
  else
    decide (1 ≤ name.length) && decide (name.length ≤ 100) &&
      name.data.all isGroupNameChar

/-- `isValidValidationEndpoint`: empty is allowed; otherwise the path must
start with `/` and must not contain `"://"`. -/
def isValidValidationEndpoint (endpoint : String) : Bool :=
  if endpoint = "" then true
  else if endpoint.startsWith "/" = false then false
  else if decide (List.IsInfix "://".data endpoint.data) then false
  else true

/-- One upstream definition `{url, weight}` as unmarshalled by
`validateAndCleanUpstreams`. -/
structure UpstreamDef where
  url : String
  weight : Int
deriving DecidableEq

/-- The `json.RawMessage` upstreams payload, by the outcomes observable in
`validateAndCleanUpstreams`: `len(upstreams) == 0`, `json.Unmarshal` failure,
or a successfully parsed list. -/
inductive RawUpstreams where
  | empty
  | malformed
  | parsed (defs : List UpstreamDef)
deriving DecidableEq

/-- The per-definition loop of `validateAndCleanUpstreams`: trims each URL,
rejects empty URLs, URLs without an `http://`/`https://` scheme and negative
weights, and tracks whether some weight is positive. -/
def validateUpstreamDefs :
    List UpstreamDef → Except GroupError (List UpstreamDef × Bool)
  | [] => .ok ([], false)
  | d :: rest =>
    let url := trimSpace d.url
    if url = "" then .error .invalidUpstreams
    else if url.startsWith "http://" = false ∧ url.startsWith "https://" = false then
      .error .invalidUpstreams
    else if d.weight < 0 then .error .invalidUpstreams
    else
      match validateUpstreamDefs rest with
      | .error e => .error e
      | .ok (ds, hasActive) =>
        .ok ({ url := url, weight := d.weight } :: ds,
             hasActive || decide (0 < d.weight))

/-- `GroupService.validateAndCleanUpstreams`: rejects an absent payload, an
unmarshal failure and an empty list; runs the per-definition loop; and rejects
lists in which no weight is positive. -/
def validateAndCleanUpstreams (raw : RawUpstreams) :
    Except GroupError (List UpstreamDef) :=
  match raw with
  | .empty => .error .invalidUpstreams
  | .malformed => .error .invalidUpstreams
  | .parsed defs =>
    if defs = [] then .error .invalidUpstreams
    else
      match validateUpstreamDefs defs with
      | .error e => .error e
      | .ok (cleaned, hasActive) =>
        if hasActive = false then .error .invalidUpstreams
        else .ok cleaned

/-- `validateModelRedirectRules` (the Go map modelled as its entry list):
every key and value must be non-empty after trimming. -/
def validateModelRedirectRules (rules : List (String × String)) : Bool :=
  rules.all (fun kv => decide (trimSpace kv.1 ≠ "") && decide (trimSpace kv.2 ≠ ""))

/-- `GroupService.isValidChannelType`: the loop over `s.channelRegistry`
testing equality, i.e. membership in the registry. -/
def isValidChannelType (channelRegistry : List String)
    (channelType : String) : Bool :=
  channelRegistry.contains channelType

/-- The group-type derivation of `CreateGroup`: the trimmed group type, with
empty defaulting to `"standard"`. -/
def effectiveGroupType (groupType : String) : String :=
  if trimSpace groupType = "" then "standard" else trimSpace groupType

/-- The `models.Group` columns the verified operations read or write
(`param_overrides`, `header_rules`, `config` and the DB-assigned id are
handled by the abstract external steps). -/
structure Group where
  id : Nat
  name : String
  displayName : String
  description : String
  groupType : String
  upstreams : List UpstreamDef
  channelType : String
  sort : Int
  testModel : String
  validationEndpoint : String
  modelRedirectRules : List (String × String)
  modelRedirectStrict : Bool
  proxyKeys : String
deriving DecidableEq

/-- `services.GroupCreateParams` (the fields consumed by the embedded steps;
`Config` and `HeaderRules` are consumed by the abstract external steps). -/
structure GroupCreateParams where
  name : String
  displayName : String
  description : String
  groupType : String
  upstreams : RawUpstreams
  channelType : String
  sort : Int
  testModel : String
  validationEndpoint : String
  modelRedirectRules : List (String × String)
  modelRedirectStrict : Bool
  proxyKeys : String
deriving DecidableEq

/-- `GroupService.CreateGroup`.  `validateAndCleanConfig`,
`normalizeHeaderRules` and the transactional `Create`+`Commit` are outside the
scope of the embedded checks; their outcomes are the abstract parameters
`configResult`, `headerResult`, `createResult`, whose failures surface as the
distinct errors those steps raise. -/
def createGroup (channelRegistry : List String) (params : GroupCreateParams)
    (configResult headerResult createResult : Except Unit Unit) :
    Except GroupError Group :=
  let name := trimSpace params.name
  if isValidGroupName name = false then .error .invalidGroupName
  else
    let channelType := trimSpace params.channelType
    if isValidChannelType channelRegistry channelType = false then .error .invalidChannelType
    else
      let groupType := effectiveGroupType params.groupType
      if groupType ≠ "standard" ∧ groupType ≠ "aggregate" then .error .invalidGroupType
      else
        let branch : Except GroupError (List UpstreamDef × String × String) :=
          if groupType = "aggregate" then .ok ([], "-", "")
          else
            let testModel := trimSpace params.testModel
            if testModel = "" then .error .testModelRequired
            else
              match validateAndCleanUpstreams params.upstreams with
              | .error e => .error e
              | .ok cleaned =>
                let validationEndpoint := trimSpace params.validationEndpoint
                if isValidValidationEndpoint validationEndpoint = false then
                  .error .invalidTestPath
                else .ok (cleaned, testModel, validationEndpoint)
        match branch with
        | .error e => .error e
        | .ok (cleanedUpstreams, testModel, validationEndpoint) =>
          match configResult with
          | .error _ => .error .configError
          | .ok _ =>
            match headerResult with
            | .error _ => .error .headerRulesError
            | .ok _ =>
              if groupType = "aggregate" ∧ params.modelRedirectRules ≠ [] then
                .error .aggregateNoModelRedirect
              else if validateModelRedirectRules params.modelRedirectRules = false then
                .error .invalidModelRedirect
              else
                match createResult with
                | .error _ => .error .dbError
                | .ok _ =>
                  .ok { id := 0, name := name,
                        displayName := trimSpace params.displayName,
                        description := trimSpace params.description,
                        groupType := groupType, upstreams := cleanedUpstreams,
                        channelType := channelType, sort := params.sort,
                        testModel := testModel,
                        validationEndpoint := validationEndpoint,
                        modelRedirectRules := params.modelRedirectRules,
                        modelRedirectStrict := params.modelRedirectStrict,
                        proxyKeys := trimSpace params.proxyKeys }

/-- `services.GroupUpdateParams` (nil pointers become `none`). -/
structure GroupUpdateParams where
  name : Option String
  displayName : Option String
  description : Option String
  upstreams : RawUpstreams
  hasUpstreams : Bool
  channelType : Option String
  sort : Option Int
  testModel : String
  hasTestModel : Bool
  validationEndpoint : Option String
  modelRedirectRules : Option (List (String × String))
  modelRedirectStrict : Option Bool
  proxyKeys : Option String

/-- A `models.GroupSubGroup` edge. -/
structure SubGroupEdge where
  groupID : Nat
  subGroupID : Nat
deriving DecidableEq

/-- A `models.APIKey` row (the columns `DeleteGroup` consumes). -/
structure APIKeyRow where
  id : Nat
  groupID : Nat
deriving DecidableEq

/-- The persisted state touched by the group CRUD operations. -/
structure AdminDB where
  groups : Nat → Option Group
  apiKeys : List APIKeyRow
  subGroupEdges : List SubGroupEdge

/-- Modelled from the spec: `AggregateGroupService.CountAggregateGroupsUsingSubGroup`
is not among the provided sources.  Per the spec (§3, **GroupSubGroup**),
edges `{parent_id, sub_group_id}` compose aggregate groups, so the number of
aggregate groups using a group as a sub-group is the number of edges whose
`sub_group_id` is that group's id. -/
def countAggregateGroupsUsingSubGroup (db : AdminDB) (id : Nat) : Nat :=
  (db.subGroupEdges.filter (fun e => decide (e.subGroupID = id))).length

/-- `UpdateGroup`: the `params.Name` branch. -/
def applyNameUpdate (params : GroupUpdateParams) (g : Group) :
    Except GroupError Group :=
  match params.name with
  | none => .ok g
  | some n =>
    let cleanedName := trimSpace n
    if isValidGroupName cleanedName = false then .error .invalidGroupName
    else .ok { g with name := cleanedName }

/-- `UpdateGroup`: the `params.DisplayName` branch. -/
def applyDisplayNameUpdate (params : GroupUpdateParams) (g : Group) : Group :=
  match params.displayName with
  | none => g
  | some s => { g with displayName := trimSpace s }

/-- `UpdateGroup`: the `params.Description` branch. -/
def applyDescriptionUpdate (params : GroupUpdateParams) (g : Group) : Group :=
  match params.description with
  | none => g
  | some s => { g with description := trimSpace s }

/-- `UpdateGroup`: the `params.HasUpstreams` branch. -/
def applyUpstreamsUpdate (params : GroupUpdateParams) (g : Group) :
    Except GroupError Group :=
  if params.hasUpstreams then
    match validateAndCleanUpstreams params.upstreams with
    | .error e => .error e
    | .ok ds => .ok { g with upstreams := ds }
  else .ok g

/-- `UpdateGroup`: the `params.ValidationEndpoint` half of the sub-group
reference check. -/
def validationEndpointGate (params : GroupUpdateParams) (g : Group) :
    Except GroupError Unit :=
  match params.validationEndpoint with
  | some ve =>
    if g.validationEndpoint ≠ trimSpace ve then .error .subGroupReferenced
    else .ok ()
  | none => .ok ()

/-- `UpdateGroup`: the `params.ChannelType` half of the sub-group reference
check, falling through to the `params.ValidationEndpoint` half. -/
def channelTypeGate (params : GroupUpdateParams) (g : Group) :
    Except GroupError Unit :=
  match params.channelType with
  | some ct =>
    if g.channelType ≠ trimSpace ct then .error .subGroupReferenced
    else validationEndpointGate params g
  | none => validationEndpointGate params g

/-- `UpdateGroup`: the check that a group referenced as a sub-group of some
aggregate group cannot change `channel_type` or `validation_endpoint`. -/
def subGroupReferenceGate (db : AdminDB) (params : GroupUpdateParams)
    (g : Group) : Except GroupError Unit :=
  if g.groupType ≠ "aggregate" ∧
      (params.channelType.isSome ∨ params.validationEndpoint.isSome) then
    if 0 < countAggregateGroupsUsingSubGroup db g.id then
      channelTypeGate params g
    else .ok ()
  else .ok ()

/-- `UpdateGroup`: the `params.ChannelType` branch (applied only to
non-aggregate groups). -/
def applyChannelTypeUpdate (channelRegistry : List String)
    (params : GroupUpdateParams) (g : Group) : Except GroupError Group :=
  match params.channelType with
  | some ct =>
    if g.groupType ≠ "aggregate" then
      let cleaned := trimSpace ct
      if isValidChannelType channelRegistry cleaned = false then .error .invalidChannelType
      else .ok { g with channelType := cleaned }
    else .ok g
  | none => .ok g

/-- `UpdateGroup`: the `params.Sort` branch. -/
def applySortUpdate (params : GroupUpdateParams) (g : Group) : Group :=
  match params.sort with
  | none => g
  | some s => { g with sort := s }

/-- `UpdateGroup`: the `params.HasTestModel` branch. -/
def applyTestModelUpdate (params : GroupUpdateParams) (g : Group) :
    Except GroupError Group :=
  if params.hasTestModel then
    let cleaned := trimSpace params.testModel
    if cleaned = "" then .error .testModelEmpty
    else .ok { g with testModel := cleaned }
  else .ok g

/-- `UpdateGroup`: the model-redirect checks and assignment. -/
def applyModelRedirectUpdate (params : GroupUpdateParams) (g : Group) :
    Except GroupError Group :=
  match params.modelRedirectRules with
  | some rules =>
    if g.groupType = "aggregate" ∧ rules ≠ [] then .error .aggregateNoModelRedirect
    else if validateModelRedirectRules rules = false then .error .invalidModelRedirect
    else .ok { g with modelRedirectRules := rules }
  | none => .ok g

/-- `UpdateGroup`: the `params.ModelRedirectStrict` branch. -/
def applyStrictUpdate (params : GroupUpdateParams) (g : Group) : Group :=
  match params.modelRedirectStrict with
  | none => g
  | some b => { g with modelRedirectStrict := b }

/-- `UpdateGroup`: the `params.ValidationEndpoint` branch. -/
def applyValidationEndpointUpdate (params : GroupUpdateParams) (g : Group) :
    Except GroupError Group :=
  match params.validationEndpoint with
  | some ve =>
    let v := trimSpace ve
    if isValidValidationEndpoint v = false then .error .invalidTestPath
    else .ok { g with validationEndpoint := v }
  | none => .ok g

/-- `UpdateGroup`: the `params.ProxyKeys` branch. -/
def applyProxyKeysUpdate (params : GroupUpdateParams) (g : Group) : Group :=
  match params.proxyKeys with
  | none => g
  | some s => { g with proxyKeys := trimSpace s }

/-- Maps the failure of an abstract external step to the error it raises. -/
def liftExternal (r : Except Unit Unit) (e : GroupError) :
    Except GroupError Unit :=
  match r with
  | .ok _ => .ok ()
  | .error _ => .error e

/-- Short-circuiting sequencing of the group-service steps (the early
`return`s of the Go method bodies). -/
def exBind {a b : Type} (x : Except GroupError a)
    (f : a → Except GroupError b) : Except GroupError b :=
  match x with
  | .error e => .error e
  | .ok v => f v

/-- The body of `GroupService.UpdateGroup` between the group load and the
commit, in the source's order (`Config` and `HeaderRules` handling and
`tx.Save`+`Commit` are the abstract steps). -/
def updatePipeline (channelRegistry : List String) (db : AdminDB)
    (params : GroupUpdateParams) (g0 : Group)
    (configResult headerResult saveResult : Except Unit Unit) :
    Except GroupError Group :=
  exBind (applyNameUpdate params g0) fun g1 =>
  exBind (applyUpstreamsUpdate params
      (applyDescriptionUpdate params (applyDisplayNameUpdate params g1))) fun g3 =>
  exBind (subGroupReferenceGate db params g3) fun _ =>
  exBind (applyChannelTypeUpdate channelRegistry params g3) fun g4 =>
  exBind (applyTestModelUpdate params (applySortUpdate params g4)) fun g6 =>
  exBind (applyModelRedirectUpdate params g6) fun g7 =>
  exBind (applyValidationEndpointUpdate params (applyStrictUpdate params g7)) fun g9 =>
  exBind (liftExternal configResult .configError) fun _ =>
  exBind (liftExternal headerResult .headerRulesError) fun _ =>
  exBind (liftExternal saveResult .dbError) fun _ =>
  .ok (applyProxyKeysUpdate params g9)

/-- `GroupService.UpdateGroup`: load the row, run the pipeline inside the
transaction; any error hits the deferred rollback and leaves the database
unchanged; on success the saved group replaces row `id`. -/
def updateGroup (channelRegistry : List String) (db : AdminDB) (id : Nat)
    (params : GroupUpdateParams)
    (configResult headerResult saveResult : Except Unit Unit) :
    Except GroupError Group × AdminDB :=
  match db.groups id with
  | none => (.error .notFound, db)
  | some g0 =>
    match updatePipeline channelRegistry db params g0 configResult headerResult
        saveResult with
    | .error e => (.error e, db)
    | .ok g' =>
      (.ok g',
       { db with groups := fun i => if i = id then some g' else db.groups i })

/-- The `keyIDs` slice `DeleteGroup` collects before opening the transaction. -/
def keyIDsOf (db : AdminDB) (id : Nat) : List Nat :=
  (db.apiKeys.filter (fun k => decide (k.groupID = id))).map (fun k => k.id)

/-- `GroupService.DeleteGroup`.  The key-pool store is an abstract state `σ`
and `removeKeysFromStore` its removal operation (`keypool` package code
outside these sources); `none` models a removal failure.  The deletions are
applied to a transaction copy; every error path returns the original database
(the deferred rollback), and only a successful store removal (or an empty
`keyIDs`) reaches the commit, which installs the copy. -/
def deleteGroup {σ : Type} (removeKeysFromStore : σ → Nat → List Nat → Option σ)
    (db : AdminDB) (store : σ) (id : Nat) (commitOk : Bool) :
    Except GroupError Unit × AdminDB × σ :=
  let keyIDs := keyIDsOf db id
  match db.groups id with
  | none => (.error .notFound, db, store)
  | some _ =>
    let keptEdges :=
      db.subGroupEdges.filter (fun e => decide (¬(e.groupID = id ∨ e.subGroupID = id)))
    let tx1 : AdminDB := { db with subGroupEdges := keptEdges }
    let tx2 : AdminDB :=
      { tx1 with apiKeys := tx1.apiKeys.filter (fun k => decide (¬ k.groupID = id)) }
    let tx3 : AdminDB :=
      { tx2 with groups := fun i => if i = id then none else tx2.groups i }
    if keyIDs ≠ [] then
      match removeKeysFromStore store id keyIDs with
      | none => (.error .deleteGroupCache, db, store)
      | some store' =>
        if commitOk then (.ok (), tx3, store') else (.error .dbError, db, store')
    else
      if commitOk then (.ok (), tx3, store) else (.error .dbError, db, store)

/-! ## Concrete rate-limiter instances used by witnesses and counterexamples -/

/-- A database in which every read fails / finds nothing. -/
def rlDBEmpty : RateLimitDB :=
  { groupConfig := fun _ => none, hourlyStat := fun _ _ => none,
    monthlyStat := fun _ _ => none }

/-- A zero clock. -/
def clock0 : Clock := { now := 0, currentHour := 0, currentMonth := 0, nextMonth := 0 }

/-- A parser that parses nothing. -/
def parseNone : String → Option Int := fun _ => none

/-- Config of a group that is both expired and over its hourly limit. -/
def cfgExpiredBusy : GroupConfig :=
  { maxRequestsPerHour := some 1, maxRequestsPerMonth := none,
    expiresAt := some "2020-01-01 00:00:00" }

/-- An hourly-stat row with 5 requests recorded. -/
def statBusy : GroupHourlyStat :=
  { groupID := 1, time := 0, successCount := 3, failureCount := 2 }

/-- Database holding group 1 with `cfgExpiredBusy` and `statBusy`. -/
def rlDBExpiredBusy : RateLimitDB :=
  { groupConfig := fun g => if g = 1 then some cfgExpiredBusy else none,
    hourlyStat := fun g t => if g = 1 ∧ t = 0 then some statBusy else none,
    monthlyStat := fun _ _ => none }

/-- A clock sitting at instant 100, inside hour 0. -/
def clockLate : Clock := { now := 100, currentHour := 0, currentMonth := 0, nextMonth := 0 }

/-- A parser mapping the expiry string of `cfgExpiredBusy` to the past
instant −100. -/
def parseOld : String → Option Int :=
  fun s => if s = "2020-01-01 00:00:00" then some (-100) else none

/-- Config with only an hourly limit of 1. -/
def cfgHourly1 : GroupConfig :=
  { maxRequestsPerHour := some 1, maxRequestsPerMonth := none, expiresAt := none }

/-- Database holding group 1 with `cfgHourly1` and `statBusy`. -/
def rlDBHourlyBusy : RateLimitDB :=
  { groupConfig := fun g => if g = 1 then some cfgHourly1 else none,
    hourlyStat := fun g t => if g = 1 ∧ t = 0 then some statBusy else none,
    monthlyStat := fun _ _ => none }

/-! ## Claims about the rate limiter -/

/-! ## Concrete group-service instances used by witnesses -/

/-- The registered channel adapters. -/
def channelRegistry3 : List String := ["openai", "gemini", "anthropic"]

/-- Standard-group creation parameters whose test model trims to empty. -/
def paramsBlankTestModel : GroupCreateParams :=
  { name := "g1", displayName := "", description := "", groupType := "standard",
    upstreams := RawUpstreams.malformed, channelType := "openai", sort := 0,
    testModel := " ", validationEndpoint := "", modelRedirectRules := [],
    modelRedirectStrict := false, proxyKeys := "" }

/-- Aggregate-group creation parameters carrying junk upstreams, test model and
validation endpoint. -/
def paramsAggregateJunk : GroupCreateParams :=
  { name := "agg1", displayName := "", description := "",
    groupType := "aggregate",
    upstreams := RawUpstreams.parsed [{ url := "ftp://x", weight := -1 }],
    channelType := "openai", sort := 0, testModel := "junk",
    validationEndpoint := "no-slash", modelRedirectRules := [],
    modelRedirectStrict := false, proxyKeys := "" }

/-- A stored standard group with id 7. -/
def group7 : Group :=
  { id := 7, name := "g7", displayName := "", description := "",
    groupType := "standard", upstreams := [{ url := "https://a", weight := 1 }],
    channelType := "openai", sort := 0, testModel := "m",
    validationEndpoint := "", modelRedirectRules := [],
    modelRedirectStrict := false, proxyKeys := "" }

/-- A database holding only `group7`. -/
def adminDB7 : AdminDB :=
  { groups := fun i => if i = 7 then some group7 else none,
    apiKeys := [], subGroupEdges := [] }

/-- Update parameters that only supply an invalid new name. -/
def uparamsBadName : GroupUpdateParams :=
  { name := some "BAD NAME", displayName := none, description := none,
    upstreams := RawUpstreams.empty, hasUpstreams := false,
    channelType := none, sort := none, testModel := "", hasTestModel := false,
    validationEndpoint := none, modelRedirectRules := none,
    modelRedirectStrict := none, proxyKeys := none }

/-- A stored standard group with id 5, channel `openai`. -/
def group5 : Group :=
  { id := 5, name := "g5", displayName := "", description := "",
    groupType := "standard", upstreams := [{ url := "https://a", weight := 1 }],
    channelType := "openai", sort := 0, testModel := "m",
    validationEndpoint := "", modelRedirectRules := [],
    modelRedirectStrict := false, proxyKeys := "" }

/-- A database in which aggregate group 9 references group 5 as a sub-group. -/
def adminDBRef : AdminDB :=
  { groups := fun i => if i = 5 then some group5 else none,
    apiKeys := [], subGroupEdges := [{ groupID := 9, subGroupID := 5 }] }

/-- Update parameters that only supply a different channel type. -/
def uparamsNewChannel : GroupUpdateParams :=
  { name := none, displayName := none, description := none,
    upstreams := RawUpstreams.empty, hasUpstreams := false,
    channelType := some "anthropic", sort := none, testModel := "",
    hasTestModel := false, validationEndpoint := none,
    modelRedirectRules := none, modelRedirectStrict := none, proxyKeys := none }

/-- A stored group with id 3 owning one key. -/
def group3 : Group :=
  { id := 3, name := "g3", displayName := "", description := "",
    groupType := "standard", upstreams := [{ url := "https://a", weight := 1 }],
    channelType := "openai", sort := 0, testModel := "m",
    validationEndpoint := "", modelRedirectRules := [],
    modelRedirectStrict := false, proxyKeys := "" }

/-- A database holding group 3, its key 11 and one sub-group edge. -/
def adminDBDel : AdminDB :=
  { groups := fun i => if i = 3 then some group3 else none,
    apiKeys := [{ id := 11, groupID := 3 }],
    subGroupEdges := [{ groupID := 3, subGroupID := 4 }] }

/-- A key-pool store removal that always fails. -/
def removeAlwaysFails : Unit → Nat → List Nat → Option Unit :=
  fun _ _ _ => none

/-- Fields of a group that the steps before the sub-group reference gate of
`UpdateGroup` never modify. -/
def coreFieldsEq (a b : Group) : Prop :=
  a.id = b.id ∧ a.groupType = b.groupType ∧ a.channelType = b.channelType ∧
    a.validationEndpoint = b.validationEndpoint

/-- Reading back the key just written returns the written row. -/
theorem writeMonthlyStat_lookup_eq (gid : Nat) (m : Int) (st : GroupMonthlyStat)
    (db : RateLimitDB) :
    (writeMonthlyStat gid m st db).monthlyStat gid m = some st := by
  simp [writeMonthlyStat]

/-- Writing one key leaves every other key unchanged. -/
theorem writeMonthlyStat_lookup_ne (gid : Nat) (m : Int) (st : GroupMonthlyStat)
    (db : RateLimitDB) (g : Nat) (m' : Int) (h : ¬(g = gid ∧ m' = m)) :
    (writeMonthlyStat gid m st db).monthlyStat g m' = db.monthlyStat g m' := by
  simp [writeMonthlyStat, h]

/-- C1 (counterexample): with `max_requests_per_hour = 1 > 0`, an existing
current-hour row with `success + failure = 5 ≥ 1`, but an `expires_at` in the
past, `CheckRateLimit` denies with reason `"expired"`, not `"hourly_limit"` —
the claim as stated omits that the expiry check runs first. -/
theorem checkRateLimit_hourly_claim_cex :
    rlDBExpiredBusy.groupConfig 1 = some cfgExpiredBusy ∧
    cfgExpiredBusy.maxRequestsPerHour = some 1 ∧ (0 : Int) < 1 ∧
    rlDBExpiredBusy.hourlyStat 1 clockLate.currentHour = some statBusy ∧
    (1 : Int) ≤ statBusy.successCount + statBusy.failureCount ∧
    (checkRateLimit parseOld clockLate 1 rlDBExpiredBusy).1 =
      some { reason := "expired", limit := 0, used := 0, resetAt := -100 } ∧
    (checkRateLimit parseOld clockLate 1 rlDBExpiredBusy).1 ≠
      some { reason := "hourly_limit", limit := 1, used := 5,
             resetAt := clockLate.currentHour + hourDuration } := by
  refine ⟨rfl, rfl, by norm_num, rfl, by decide, ?_, ?_⟩ <;> decide

/-- C1 (amended): provided the group config row loads, if
`max_requests_per_hour = L > 0`, the current-hour `GroupHourlyStat` row exists
with `success + failure ≥ L`, and the (earlier) expiry check does not deny,
then `CheckRateLimit` denies with reason `"hourly_limit"`, limit `L`,
`used = success + failure`, `reset_at` = start of the next hour; and whenever
the limit is unset, `≤ 0`, the row is absent, or the total is below the limit,
the hourly check denies nothing. -/
theorem checkRateLimit_hourly (parseTime : String → Option Int) (clock : Clock)
    (gid : Nat) (db : RateLimitDB) (cfg : GroupConfig)
    (hc : db.groupConfig gid = some cfg) :
    (∀ L st, cfg.maxRequestsPerHour = some L → 0 < L →
      db.hourlyStat gid clock.currentHour = some st →
      L ≤ st.successCount + st.failureCount →
      expiryDenial parseTime clock cfg = none →
      (checkRateLimit parseTime clock gid db).1 =
        some { reason := "hourly_limit", limit := L,
               used := st.successCount + st.failureCount,
               resetAt := clock.currentHour + hourDuration })
    ∧ ((∀ L, cfg.maxRequestsPerHour = some L → 0 < L →
          ∀ st, db.hourlyStat gid clock.currentHour = some st →
            st.successCount + st.failureCount < L) →
        hourlyDenial clock gid db cfg = none) := by
  constructor
  · intro L st hL hLpos hst htot hexp
    have hden : hourlyDenial clock gid db cfg =
        some { reason := "hourly_limit", limit := L,
               used := st.successCount + st.failureCount,
               resetAt := clock.currentHour + hourDuration } := by
      simp [hourlyDenial, readHourlyStat, hL, hLpos, hst, htot]
    simp [checkRateLimit, readGroupConfig, hc, hexp, hden]
  · intro hbelow
    unfold hourlyDenial
    cases hL : cfg.maxRequestsPerHour with
    | none => rfl
    | some L =>
      simp only [readHourlyStat]
      by_cases hLpos : 0 < L
      · simp only [hLpos, if_true]
        cases hst : db.hourlyStat gid clock.currentHour with
        | none => rfl
        | some st =>
          have := hbelow L hL hLpos st hst
          simp [not_le.mpr this]
      · simp [hLpos]

/-- C1 (witness): concrete instantiation of `checkRateLimit_hourly` on a group
with limit 1 and 5 recorded requests: the result is the hourly denial. -/
theorem checkRateLimit_hourly_witness :
    (checkRateLimit parseNone clockLate 1 rlDBHourlyBusy).1 =
      some { reason := "hourly_limit", limit := 1, used := 5,
             resetAt := clockLate.currentHour + hourDuration } := by
  have h := (checkRateLimit_hourly parseNone clockLate 1 rlDBHourlyBusy
    cfgHourly1 rfl).1 1 statBusy rfl (by norm_num) rfl (by decide) (by decide)
  simpa using h

/-- C3: `CheckRateLimit` performs no writes — for every parser, clock, group id
and database state it returns the database unchanged, whether it allows or
denies. -/
theorem checkRateLimit_no_writes (parseTime : String → Option Int)
    (clock : Clock) (gid : Nat) (db : RateLimitDB) :
    (checkRateLimit parseTime clock gid db).2 = db := by
  rcases hc : db.groupConfig gid with _ | cfg
  · simp [checkRateLimit, readGroupConfig, hc]
  · rcases he : expiryDenial parseTime clock cfg with _ | e
    · rcases hh : hourlyDenial clock gid db cfg with _ | e
      · rcases hm : monthlyDenial clock gid db cfg with _ | e
        · simp [checkRateLimit, readGroupConfig, hc, he, hh, hm]
        · simp [checkRateLimit, readGroupConfig, hc, he, hh, hm]
      · simp [checkRateLimit, readGroupConfig, hc, he, hh]
    · simp [checkRateLimit, readGroupConfig, hc, he]

/-- C4: provided the group config row loads, if `expires_at` is a non-empty
string that parses to an instant before `now`, `CheckRateLimit` denies with
reason `"expired"` and `reset_at` equal to the parsed instant — for every
database state, i.e. before and regardless of the hourly and monthly checks;
and if `expires_at` is unset, empty, unparsable, or not in the past, the
expiry check denies nothing. -/
theorem checkRateLimit_expiry (parseTime : String → Option Int) (clock : Clock)
    (gid : Nat) (db : RateLimitDB) (cfg : GroupConfig)
    (hc : db.groupConfig gid = some cfg) :
    (∀ s e, cfg.expiresAt = some s → s ≠ "" → parseTime s = some e →
      e < clock.now →
      (checkRateLimit parseTime clock gid db).1 =
        some { reason := "expired", limit := 0, used := 0, resetAt := e })
    ∧ ((∀ s, cfg.expiresAt = some s → s ≠ "" →
          ∀ e, parseTime s = some e → ¬ e < clock.now) →
        expiryDenial parseTime clock cfg = none) := by
  constructor
  · intro s e hs hne hparse hpast
    have hexp : expiryDenial parseTime clock cfg =
        some { reason := "expired", limit := 0, used := 0, resetAt := e } := by
      simp [expiryDenial, hs, hne, hparse, hpast]
    simp [checkRateLimit, readGroupConfig, hc, hexp]
  · intro hnot
    unfold expiryDenial
    cases hs : cfg.expiresAt with
    | none => rfl
    | some s =>
      by_cases hne : s = ""
      · simp [hne]
      · simp only [ne_eq, hne, not_false_eq_true, if_true]
        cases hp : parseTime s with
        | none => rfl
        | some e =>
          have := hnot s hs hne e hp
          simp [not_lt.mp (by simpa using this)]

/-- C4 (witness): concrete instantiation of `checkRateLimit_expiry` on an
expired group: the result is the expiry denial. -/
theorem checkRateLimit_expiry_witness :
    (checkRateLimit parseOld clockLate 1 rlDBExpiredBusy).1 =
      some { reason := "expired", limit := 0, used := 0, resetAt := -100 } :=
  (checkRateLimit_expiry parseOld clockLate 1 rlDBExpiredBusy cfgExpiredBusy
    rfl).1 "2020-01-01 00:00:00" (-100) rfl (by decide) (by decide) (by decide)

/-- C9: when the group row (its config column) cannot be loaded,
`CheckRateLimit` returns `nil` — the request is allowed, no check is applied,
and the state is untouched, for every parser, clock and group id. -/
theorem checkRateLimit_load_error_allows (parseTime : String → Option Int)
    (clock : Clock) (gid : Nat) (db : RateLimitDB)
    (h : db.groupConfig gid = none) :
    checkRateLimit parseTime clock gid db = (none, db) := by
  simp [checkRateLimit, readGroupConfig, h]

/-- C9 (witness): concrete instantiation of `checkRateLimit_load_error_allows`
on the empty database. -/
theorem checkRateLimit_load_error_allows_witness :
    checkRateLimit parseNone clock0 1 rlDBEmpty = (none, rlDBEmpty) :=
  checkRateLimit_load_error_allows parseNone clock0 1 rlDBEmpty rfl

/-- C5: `IncrementGroupMonthlyStat` preserves the per-row invariant
`request_count = success_count + failure_count`, touches no other row, creates
`{request_count = 1, success/failure = 1}` when the current-month row is
absent, and otherwise adds exactly 1 to `request_count` and exactly 1 to the
matching outcome counter. -/
theorem incrementGroupMonthlyStat_invariant (clock : Clock) (gid : Nat)
    (isSuccess : Bool) (db : RateLimitDB)
    (hinv : ∀ g m st, db.monthlyStat g m = some st →
      st.requestCount = st.successCount + st.failureCount) :
    (∀ g m st,
      (incrementGroupMonthlyStat clock gid isSuccess db).monthlyStat g m = some st →
      st.requestCount = st.successCount + st.failureCount)
    ∧ (∀ g m, ¬(g = gid ∧ m = clock.currentMonth) →
        (incrementGroupMonthlyStat clock gid isSuccess db).monthlyStat g m =
          db.monthlyStat g m)
    ∧ (db.monthlyStat gid clock.currentMonth = none →
        (incrementGroupMonthlyStat clock gid isSuccess db).monthlyStat gid
            clock.currentMonth =
          some { groupID := gid, month := clock.currentMonth, requestCount := 1,
                 successCount := if isSuccess then 1 else 0,
                 failureCount := if isSuccess then 0 else 1 })
    ∧ (∀ st, db.monthlyStat gid clock.currentMonth = some st →
        (incrementGroupMonthlyStat clock gid isSuccess db).monthlyStat gid
            clock.currentMonth =
          some { st with
                 requestCount := st.requestCount + 1,
                 successCount :=
                   if isSuccess then st.successCount + 1 else st.successCount,
                 failureCount :=
                   if isSuccess then st.failureCount else st.failureCount + 1 }) := by
  rcases hrow : db.monthlyStat gid clock.currentMonth with _ | st0
  · have hd : incrementGroupMonthlyStat clock gid isSuccess db =
        writeMonthlyStat gid clock.currentMonth
          { groupID := gid, month := clock.currentMonth, requestCount := 1,
            successCount := if isSuccess then 1 else 0,
            failureCount := if isSuccess then 0 else 1 } db := by
      simp [incrementGroupMonthlyStat, readMonthlyStat, hrow]
    refine ⟨?_, ?_, ?_, ?_⟩
    · intro g m st hst
      rw [hd] at hst
      by_cases hk : g = gid ∧ m = clock.currentMonth
      · obtain ⟨hg, hm⟩ := hk
        subst hg; subst hm
        rw [writeMonthlyStat_lookup_eq] at hst
        rw [Option.some_inj] at hst
        subst hst
        cases isSuccess <;> simp
      · rw [writeMonthlyStat_lookup_ne _ _ _ _ _ _ hk] at hst
        exact hinv g m st hst
    · intro g m hk
      rw [hd, writeMonthlyStat_lookup_ne _ _ _ _ _ _ hk]
    · intro _
      rw [hd, writeMonthlyStat_lookup_eq]
    · intro st hst
      exact Option.noConfusion hst
  · have hd : incrementGroupMonthlyStat clock gid isSuccess db =
        writeMonthlyStat gid clock.currentMonth
          { st0 with
            requestCount := st0.requestCount + 1,
            successCount :=
              if isSuccess then st0.successCount + 1 else st0.successCount,
            failureCount :=
              if isSuccess then st0.failureCount else st0.failureCount + 1 } db := by
      simp [incrementGroupMonthlyStat, readMonthlyStat, hrow]
    have h0 := hinv gid clock.currentMonth st0 hrow
    refine ⟨?_, ?_, ?_, ?_⟩
    · intro g m st hst
      rw [hd] at hst
      by_cases hk : g = gid ∧ m = clock.currentMonth
      · obtain ⟨hg, hm⟩ := hk
        subst hg; subst hm
        rw [writeMonthlyStat_lookup_eq] at hst
        rw [Option.some_inj] at hst
        subst hst
        cases isSuccess <;> simp <;> omega
      · rw [writeMonthlyStat_lookup_ne _ _ _ _ _ _ hk] at hst
        exact hinv g m st hst
    · intro g m hk
      rw [hd, writeMonthlyStat_lookup_ne _ _ _ _ _ _ hk]
    · intro hnone
      exact Option.noConfusion hnone
    · intro st hst
      rw [Option.some_inj] at hst
      subst hst
      rw [hd, writeMonthlyStat_lookup_eq]

/-- C5 (witness): concrete instantiation of
`incrementGroupMonthlyStat_invariant` on the empty database: a fresh row
`{request_count = 1, success_count = 1, failure_count = 0}` is created. -/
theorem incrementGroupMonthlyStat_invariant_witness :
    (incrementGroupMonthlyStat clock0 1 true rlDBEmpty).monthlyStat 1
        clock0.currentMonth =
      some { groupID := 1, month := clock0.currentMonth, requestCount := 1,
             successCount := if true then 1 else 0,
             failureCount := if true then 0 else 1 } :=
  (incrementGroupMonthlyStat_invariant clock0 1 true rlDBEmpty
    (by intro g m st hst; simp [rlDBEmpty] at hst)).2.2.1 rfl

/-! ## Helper lemmas about upstream validation -/

/-- Every failure of the per-definition loop is the upstreams validation
error. -/
theorem validateUpstreamDefs_error_eq (defs : List UpstreamDef) :
    ∀ e, validateUpstreamDefs defs = Except.error e → e = GroupError.invalidUpstreams := by
  induction defs with
  | nil => intro e h; exact absurd h (by simp [validateUpstreamDefs])
  | cons d rest ih =>
    intro e h
    rw [validateUpstreamDefs] at h
    split at h
    · simp only [Except.error.injEq] at h; exact h.symm
    · split at h
      · simp only [Except.error.injEq] at h; exact h.symm
      · split at h
        · simp only [Except.error.injEq] at h; exact h.symm
        · split at h
          · rename_i e' heq
            simp only [Except.error.injEq] at h
            exact h ▸ ih e' heq
          · exact absurd h (by simp)

/-- Every failure of `validateAndCleanUpstreams` is the upstreams validation
error. -/
theorem validateAndCleanUpstreams_error_eq (raw : RawUpstreams) (e : GroupError)
    (h : validateAndCleanUpstreams raw = Except.error e) :
    e = GroupError.invalidUpstreams := by
  cases raw with
  | empty => simp only [validateAndCleanUpstreams, Except.error.injEq] at h; exact h.symm
  | malformed => simp only [validateAndCleanUpstreams, Except.error.injEq] at h; exact h.symm
  | parsed defs =>
    rw [validateAndCleanUpstreams] at h
    split at h
    · simp only [Except.error.injEq] at h; exact h.symm
    · split at h
      · rename_i e' heq
        simp only [Except.error.injEq] at h
        exact h ▸ validateUpstreamDefs_error_eq defs e' heq
      · split at h
        · simp only [Except.error.injEq] at h; exact h.symm
        · exact absurd h (by simp)

/-- What a successful run of the per-definition loop guarantees about its
input list. -/
theorem validateUpstreamDefs_ok_spec (defs : List UpstreamDef) :
    ∀ ds ha, validateUpstreamDefs defs = Except.ok (ds, ha) →
      (∀ d ∈ defs, trimSpace d.url ≠ "" ∧
        ((trimSpace d.url).startsWith "http://" = true ∨
          (trimSpace d.url).startsWith "https://" = true) ∧ 0 ≤ d.weight) ∧
      (ha = true → ∃ d ∈ defs, 0 < d.weight) := by
  induction defs with
  | nil =>
    intro ds ha h
    simp only [validateUpstreamDefs, Except.ok.injEq, Prod.mk.injEq] at h
    refine ⟨by simp, ?_⟩
    intro hha
    rw [← h.2] at hha
    exact absurd hha (by simp)
  | cons d rest ih =>
    intro ds ha h
    rw [validateUpstreamDefs] at h
    split at h
    · exact absurd h (by simp)
    · split at h
      · exact absurd h (by simp)
      · split at h
        · exact absurd h (by simp)
        · split at h
          · exact absurd h (by simp)
          · rename_i hurl hsch hw hscrut ds' ha' heq
            simp only [Except.ok.injEq, Prod.mk.injEq] at h
            obtain ⟨hds, hha⟩ := h
            obtain ⟨hall, hact⟩ := ih ds' ha' heq
            constructor
            · intro d' hd'
              rcases List.mem_cons.mp hd' with hhd | htl
              · subst hhd
                have hsch2 : (trimSpace d'.url).startsWith "http://" = true ∨
                    (trimSpace d'.url).startsWith "https://" = true := by
                  revert hsch
                  cases (trimSpace d'.url).startsWith "http://" <;>
                    cases (trimSpace d'.url).startsWith "https://" <;> simp
                exact ⟨hurl, hsch2, le_of_not_lt hw⟩
              · exact hall d' htl
            · intro hha'
              rw [← hha] at hha'
              rcases Bool.or_eq_true_iff.mp hha' with hx | hx
              · obtain ⟨d2, hd2, hw2⟩ := hact hx
                exact ⟨d2, List.mem_cons_of_mem d hd2, hw2⟩
              · exact ⟨d, List.mem_cons_self d rest, of_decide_eq_true hx⟩

/-- What a successful `validateAndCleanUpstreams` guarantees about the raw
payload: it parsed to a non-empty list whose trimmed URLs are non-empty with
an `http://`/`https://` scheme, all weights are non-negative, and some weight
is positive. -/
theorem validateAndCleanUpstreams_ok_good (raw : RawUpstreams)
    (ds : List UpstreamDef) (h : validateAndCleanUpstreams raw = Except.ok ds) :
    ∃ defs, raw = RawUpstreams.parsed defs ∧ defs ≠ [] ∧
      (∀ d ∈ defs, trimSpace d.url ≠ "" ∧
        ((trimSpace d.url).startsWith "http://" = true ∨
          (trimSpace d.url).startsWith "https://" = true) ∧ 0 ≤ d.weight) ∧
      ∃ d ∈ defs, 0 < d.weight := by
  cases raw with
  | empty => exact absurd h (by simp [validateAndCleanUpstreams])
  | malformed => exact absurd h (by simp [validateAndCleanUpstreams])
  | parsed defs =>
    rw [validateAndCleanUpstreams] at h
    split at h
    · exact absurd h (by simp)
    · rename_i hne
      split at h
      · exact absurd h (by simp)
      · rename_i ds' ha' heq
        split at h
        · exact absurd h (by simp)
        · rename_i hact
          obtain ⟨hall, hsome⟩ := validateUpstreamDefs_ok_spec defs ds' ha' heq
          refine ⟨defs, rfl, hne, hall, ?_⟩
          exact hsome (by revert hact; cases ha' <;> simp)

/-- Classification of every failure of `createGroup`; an `invalidGroupName`
failure can only come from the opening name check. -/
theorem createGroup_error_cases (registry : List String)
    (params : GroupCreateParams) (cR hR dR : Except Unit Unit) (e : GroupError)
    (h : createGroup registry params cR hR dR = Except.error e) :
    (e = GroupError.invalidGroupName ∧
      isValidGroupName (trimSpace params.name) = false) ∨
    e = GroupError.invalidChannelType ∨ e = GroupError.invalidGroupType ∨
    e = GroupError.testModelRequired ∨ e = GroupError.invalidUpstreams ∨
    e = GroupError.invalidTestPath ∨ e = GroupError.configError ∨
    e = GroupError.headerRulesError ∨ e = GroupError.aggregateNoModelRedirect ∨
    e = GroupError.invalidModelRedirect ∨ e = GroupError.dbError := by
  by_cases hname : isValidGroupName (trimSpace params.name) = false
  · simp [createGroup, hname] at h
    subst h
    exact Or.inl ⟨rfl, hname⟩
  · by_cases hch : isValidChannelType registry (trimSpace params.channelType) = false
    · simp [createGroup, hname, hch] at h
      subst h
      simp
    · by_cases hgt : effectiveGroupType params.groupType ≠ "standard" ∧
          effectiveGroupType params.groupType ≠ "aggregate"
      · simp [createGroup, hname, hch, hgt] at h
        subst h
        simp
      · by_cases hga : effectiveGroupType params.groupType = "aggregate"
        · by_cases hmr : params.modelRedirectRules = []
          · cases cR with
            | error u =>
              simp [createGroup, hname, hch, hgt, hga, hmr] at h
              subst h; simp
            | ok u =>
              cases hR with
              | error v =>
                simp [createGroup, hname, hch, hgt, hga, hmr] at h
                subst h; simp
              | ok v =>
                cases dR with
                | error w =>
                  simp [createGroup, validateModelRedirectRules, hname, hch,
                    hgt, hga, hmr] at h
                  subst h; simp
                | ok w =>
                  simp [createGroup, validateModelRedirectRules, hname, hch,
                    hgt, hga, hmr] at h
          · cases cR with
            | error u =>
              simp [createGroup, hname, hch, hgt, hga, hmr] at h
              subst h; simp
            | ok u =>
              cases hR with
              | error v =>
                simp [createGroup, hname, hch, hgt, hga, hmr] at h
                subst h; simp
              | ok v =>
                simp [createGroup, hname, hch, hgt, hga, hmr] at h
                subst h; simp
        · have hgs : effectiveGroupType params.groupType = "standard" := by
            by_contra hx
            exact hgt ⟨hx, hga⟩
          by_cases htm : trimSpace params.testModel = ""
          · simp [createGroup, hname, hch, hgs, hga, htm] at h
            subst h; simp
          · cases hu : validateAndCleanUpstreams params.upstreams with
            | error e2 =>
              simp [createGroup, hname, hch, hgs, hga, htm, hu] at h
              have h5 := validateAndCleanUpstreams_error_eq _ _ hu
              subst h5
              subst h
              simp
            | ok ds =>
              by_cases hvep : isValidValidationEndpoint
                  (trimSpace params.validationEndpoint) = false
              · simp [createGroup, hname, hch, hgs, hga, htm, hu, hvep] at h
                subst h; simp
              · cases cR with
                | error u =>
                  simp [createGroup, hname, hch, hgs, hga, htm, hu, hvep] at h
                  subst h; simp
                | ok u =>
                  cases hR with
                  | error v =>
                    simp [createGroup, hname, hch, hgs, hga, htm, hu, hvep] at h
                    subst h; simp
                  | ok v =>
                    by_cases hvr : validateModelRedirectRules
                        params.modelRedirectRules = false
                    · simp [createGroup, hname, hch, hgs, hga, htm, hu, hvep,
                        hvr] at h
                      subst h; simp
                    · cases dR with
                      | error w =>
                        simp [createGroup, hname, hch, hgs, hga, htm, hu, hvep,
                          hvr] at h
                        subst h; simp
                      | ok w =>
                        simp [createGroup, hname, hch, hgs, hga, htm, hu, hvep,
                          hvr] at h

/-- C6: for an `"aggregate"` group type, any successfully created group stores
the empty upstream list, test model `"-"` and an empty validation endpoint,
whatever was supplied; for a `"standard"` group type, creation fails with a
validation error unless the trimmed test model is non-empty and the upstreams
parse to a non-empty list whose trimmed URLs are non-empty and carry an
`http://`/`https://` scheme, with all weights `≥ 0` and some weight `> 0`. -/
theorem createGroup_type_rules (registry : List String)
    (params : GroupCreateParams) (cR hR dR : Except Unit Unit) :
    (trimSpace params.groupType = "aggregate" →
      ∀ g, createGroup registry params cR hR dR = Except.ok g →
        g.upstreams = [] ∧ g.testModel = "-" ∧ g.validationEndpoint = "")
    ∧ (trimSpace params.groupType = "standard" →
      ¬(trimSpace params.testModel ≠ "" ∧
        ∃ defs, params.upstreams = RawUpstreams.parsed defs ∧ defs ≠ [] ∧
          (∀ d ∈ defs, trimSpace d.url ≠ "" ∧
            ((trimSpace d.url).startsWith "http://" = true ∨
              (trimSpace d.url).startsWith "https://" = true) ∧ 0 ≤ d.weight) ∧
          ∃ d ∈ defs, 0 < d.weight) →
      ∃ e, createGroup registry params cR hR dR = Except.error e ∧
        e.isValidation = true) := by
  constructor
  · intro hagg g hok
    have hga : effectiveGroupType params.groupType = "aggregate" := by
      simp [effectiveGroupType, hagg]
    by_cases hname : isValidGroupName (trimSpace params.name) = false
    · simp [createGroup, hga, hname] at hok
    · by_cases hch : isValidChannelType registry (trimSpace params.channelType) = false
      · simp [createGroup, hga, hname, hch] at hok
      · cases cR with
        | error u => simp [createGroup, hga, hname, hch] at hok
        | ok u =>
          cases hR with
          | error v => simp [createGroup, hga, hname, hch] at hok
          | ok v =>
            by_cases hmr : params.modelRedirectRules = []
            · cases dR with
              | error w =>
                simp [createGroup, validateModelRedirectRules, hga, hname,
                  hch, hmr] at hok
              | ok w =>
                simp [createGroup, validateModelRedirectRules, hga, hname,
                  hch, hmr] at hok
                subst hok
                exact ⟨rfl, rfl, rfl⟩
            · simp [createGroup, hga, hname, hch, hmr] at hok
  · intro hstd hbad
    have hgs : effectiveGroupType params.groupType = "standard" := by
      simp [effectiveGroupType, hstd]
    by_cases hname : isValidGroupName (trimSpace params.name) = false
    · exact ⟨GroupError.invalidGroupName, by simp [createGroup, hname], rfl⟩
    · by_cases hch : isValidChannelType registry (trimSpace params.channelType) = false
      · exact ⟨GroupError.invalidChannelType,
          by simp [createGroup, hname, hch], rfl⟩
      · by_cases htm : trimSpace params.testModel = ""
        · exact ⟨GroupError.testModelRequired,
            by simp [createGroup, hname, hch, hgs, htm], rfl⟩
        · have hbadu : ∀ ds, validateAndCleanUpstreams params.upstreams ≠ Except.ok ds := by
            intro ds hok
            exact hbad ⟨htm, validateAndCleanUpstreams_ok_good _ ds hok⟩
          cases hu : validateAndCleanUpstreams params.upstreams with
          | ok ds => exact absurd hu (hbadu ds)
          | error e2 =>
            have he := validateAndCleanUpstreams_error_eq _ e2 hu
            subst he
            exact ⟨GroupError.invalidUpstreams,
              by simp [createGroup, hname, hch, hgs, htm, hu], rfl⟩

/-- C6 (witness): instantiating `createGroup_type_rules` on standard-group
parameters whose test model trims to empty yields a validation error. -/
theorem createGroup_type_rules_witness :
    ∃ e, createGroup channelRegistry3 paramsBlankTestModel
        (Except.ok ()) (Except.ok ()) (Except.ok ()) = Except.error e ∧
      e.isValidation = true :=
  (createGroup_type_rules channelRegistry3 paramsBlankTestModel
      (Except.ok ()) (Except.ok ()) (Except.ok ())).2
    (by decide) (fun hcond => hcond.1 (by decide))

/-! ## Helper lemmas about the UpdateGroup steps -/

/-- The name branch fails only with `invalidGroupName`, and only for a
supplied name whose trimmed form is invalid. -/
theorem applyNameUpdate_error_inv (params : GroupUpdateParams) (g : Group)
    (e : GroupError) (h : applyNameUpdate params g = Except.error e) :
    e = GroupError.invalidGroupName ∧
      ∃ n, params.name = some n ∧ isValidGroupName (trimSpace n) = false := by
  cases hn : params.name with
  | none => simp [applyNameUpdate, hn] at h
  | some n =>
    by_cases hv : isValidGroupName (trimSpace n) = false
    · simp only [applyNameUpdate, hn, hv, if_true] at h
      simp only [Except.error.injEq] at h
      subst h
      exact ⟨rfl, n, rfl, hv⟩
    · simp [applyNameUpdate, hn, hv] at h

/-- The upstreams branch fails only with `invalidUpstreams`. -/
theorem applyUpstreamsUpdate_error_inv (params : GroupUpdateParams) (g : Group)
    (e : GroupError) (h : applyUpstreamsUpdate params g = Except.error e) :
    e = GroupError.invalidUpstreams := by
  by_cases hup : params.hasUpstreams = true
  · cases hu : validateAndCleanUpstreams params.upstreams with
    | error e2 =>
      simp only [applyUpstreamsUpdate, hup, if_true, hu] at h
      simp only [Except.error.injEq] at h
      subst h
      exact validateAndCleanUpstreams_error_eq _ _ hu
    | ok ds => simp [applyUpstreamsUpdate, hup, hu] at h
  · simp [applyUpstreamsUpdate, hup] at h

/-- The validation-endpoint half of the reference gate fires exactly on a
supplied, differing endpoint. -/
theorem validationEndpointGate_error_inv (params : GroupUpdateParams)
    (g : Group) (e : GroupError)
    (h : validationEndpointGate params g = Except.error e) :
    e = GroupError.subGroupReferenced ∧
      ∃ ve, params.validationEndpoint = some ve ∧
        g.validationEndpoint ≠ trimSpace ve := by
  cases hv : params.validationEndpoint with
  | none => simp [validationEndpointGate, hv] at h
  | some ve =>
    by_cases hne : g.validationEndpoint ≠ trimSpace ve
    · simp [validationEndpointGate, hv, hne] at h
      subst h
      exact ⟨rfl, ve, rfl, hne⟩
    · simp [validationEndpointGate, hv, hne] at h

/-- The channel-type half of the reference gate fails only with
`subGroupReferenced` and only on a supplied differing channel type or
validation endpoint. -/
theorem channelTypeGate_error_inv (params : GroupUpdateParams) (g : Group)
    (e : GroupError) (h : channelTypeGate params g = Except.error e) :
    e = GroupError.subGroupReferenced ∧
      ((∃ ct, params.channelType = some ct ∧ g.channelType ≠ trimSpace ct) ∨
       (∃ ve, params.validationEndpoint = some ve ∧
         g.validationEndpoint ≠ trimSpace ve)) := by
  cases hct : params.channelType with
  | none =>
    simp only [channelTypeGate, hct] at h
    obtain ⟨he, ve, hve, hnev⟩ := validationEndpointGate_error_inv _ _ _ h
    exact ⟨he, Or.inr ⟨ve, hve, hnev⟩⟩
  | some ct =>
    by_cases hne : g.channelType ≠ trimSpace ct
    · simp [channelTypeGate, hct, hne] at h
      subst h
      exact ⟨rfl, Or.inl ⟨ct, rfl, hne⟩⟩
    · simp only [channelTypeGate, hct] at h
      rw [if_neg hne] at h
      obtain ⟨he, ve, hve, hnev⟩ := validationEndpointGate_error_inv _ _ _ h
      exact ⟨he, Or.inr ⟨ve, hve, hnev⟩⟩

/-- The reference gate fails only with `subGroupReferenced`, only when the
reference count is positive, and only for a supplied differing channel type or
validation endpoint. -/
theorem subGroupReferenceGate_error_inv (db : AdminDB)
    (params : GroupUpdateParams) (g : Group) (e : GroupError)
    (h : subGroupReferenceGate db params g = Except.error e) :
    e = GroupError.subGroupReferenced ∧
      0 < countAggregateGroupsUsingSubGroup db g.id ∧
      ((∃ ct, params.channelType = some ct ∧ g.channelType ≠ trimSpace ct) ∨
       (∃ ve, params.validationEndpoint = some ve ∧
         g.validationEndpoint ≠ trimSpace ve)) := by
  by_cases houter : g.groupType ≠ "aggregate" ∧
      (params.channelType.isSome ∨ params.validationEndpoint.isSome)
  · by_cases hcnt : 0 < countAggregateGroupsUsingSubGroup db g.id
    · rw [subGroupReferenceGate, if_pos houter, if_pos hcnt] at h
      obtain ⟨he, hrest⟩ := channelTypeGate_error_inv _ _ _ h
      exact ⟨he, hcnt, hrest⟩
    · rw [subGroupReferenceGate, if_pos houter, if_neg hcnt] at h
      exact absurd h (by simp)
  · rw [subGroupReferenceGate, if_neg houter] at h
    exact absurd h (by simp)

/-- The validation-endpoint half of the reference gate fires on a supplied
differing endpoint. -/
theorem validationEndpointGate_fires (params : GroupUpdateParams) (g : Group)
    (ve : String) (hve : params.validationEndpoint = some ve)
    (hnev : g.validationEndpoint ≠ trimSpace ve) :
    validationEndpointGate params g = Except.error GroupError.subGroupReferenced := by
  simp [validationEndpointGate, hve, hnev]

/-- The reference gate fires for a referenced non-aggregate group when a
supplied channel type or validation endpoint differs from the current value. -/
theorem subGroupReferenceGate_fires (db : AdminDB) (params : GroupUpdateParams)
    (g : Group) (hag : g.groupType ≠ "aggregate")
    (hcnt : 0 < countAggregateGroupsUsingSubGroup db g.id)
    (hdiff : (∃ ct, params.channelType = some ct ∧ g.channelType ≠ trimSpace ct) ∨
      (∃ ve, params.validationEndpoint = some ve ∧
        g.validationEndpoint ≠ trimSpace ve)) :
    subGroupReferenceGate db params g = Except.error GroupError.subGroupReferenced := by
  have hsome : params.channelType.isSome ∨ params.validationEndpoint.isSome := by
    rcases hdiff with ⟨ct, hct, _⟩ | ⟨ve, hve, _⟩
    · exact Or.inl (by simp [hct])
    · exact Or.inr (by simp [hve])
  rw [subGroupReferenceGate, if_pos (And.intro hag hsome), if_pos hcnt]
  rcases hdiff with ⟨ct, hct, hne⟩ | ⟨ve, hve, hnev⟩
  · simp [channelTypeGate, hct, hne]
  · cases hct2 : params.channelType with
    | some ct =>
      by_cases hne2 : g.channelType ≠ trimSpace ct
      · simp [channelTypeGate, hct2, hne2]
      · simp [channelTypeGate, hct2, hne2,
          validationEndpointGate_fires params g ve hve hnev]
    | none =>
      simp [channelTypeGate, hct2,
        validationEndpointGate_fires params g ve hve hnev]

/-- The non-aggregate channel-type branch fails only with
`invalidChannelType`. -/
theorem applyChannelTypeUpdate_error_inv (registry : List String)
    (params : GroupUpdateParams) (g : Group) (e : GroupError)
    (h : applyChannelTypeUpdate registry params g = Except.error e) :
    e = GroupError.invalidChannelType := by
  cases hct : params.channelType with
  | none => simp [applyChannelTypeUpdate, hct] at h
  | some ct =>
    by_cases hag : g.groupType ≠ "aggregate"
    · by_cases hv : isValidChannelType registry (trimSpace ct) = false
      · simp [applyChannelTypeUpdate, hct, hag, hv] at h
        first
        | exact h
        | exact h.symm
      · simp [applyChannelTypeUpdate, hct, hag, hv] at h
    · simp [applyChannelTypeUpdate, hct, hag] at h

/-- The test-model branch fails only with `testModelEmpty`. -/
theorem applyTestModelUpdate_error_inv (params : GroupUpdateParams) (g : Group)
    (e : GroupError) (h : applyTestModelUpdate params g = Except.error e) :
    e = GroupError.testModelEmpty := by
  by_cases hup : params.hasTestModel = true
  · by_cases htm : trimSpace params.testModel = ""
    · simp [applyTestModelUpdate, hup, htm] at h
      first
      | exact h
      | exact h.symm
    · simp [applyTestModelUpdate, hup, htm] at h
  · simp [applyTestModelUpdate, hup] at h

/-- The model-redirect branch fails only with one of its two errors. -/
theorem applyModelRedirectUpdate_error_inv (params : GroupUpdateParams)
    (g : Group) (e : GroupError)
    (h : applyModelRedirectUpdate params g = Except.error e) :
    e = GroupError.aggregateNoModelRedirect ∨ e = GroupError.invalidModelRedirect := by
  cases hmr : params.modelRedirectRules with
  | none => simp [applyModelRedirectUpdate, hmr] at h
  | some rules =>
    by_cases hagg : g.groupType = "aggregate" ∧ rules ≠ []
    · simp [applyModelRedirectUpdate, hmr, hagg] at h
      subst h
      simp
    · by_cases hvr : validateModelRedirectRules rules = false
      · simp [applyModelRedirectUpdate, hmr, hagg, hvr] at h
        subst h
        simp
      · simp [applyModelRedirectUpdate, hmr, hagg, hvr] at h

/-- The validation-endpoint branch fails only with `invalidTestPath`. -/
theorem applyValidationEndpointUpdate_error_inv (params : GroupUpdateParams)
    (g : Group) (e : GroupError)
    (h : applyValidationEndpointUpdate params g = Except.error e) :
    e = GroupError.invalidTestPath := by
  cases hve : params.validationEndpoint with
  | none => simp [applyValidationEndpointUpdate, hve] at h
  | some ve =>
    by_cases hv : isValidValidationEndpoint (trimSpace ve) = false
    · simp [applyValidationEndpointUpdate, hve, hv] at h
      first
      | exact h
      | exact h.symm
    · simp [applyValidationEndpointUpdate, hve, hv] at h

/-- An abstract external step fails only with its designated error. -/
theorem liftExternal_error_inv (r : Except Unit Unit) (err e : GroupError)
    (h : liftExternal r err = Except.error e) : e = err := by
  cases r with
  | error u =>
    simp only [liftExternal, Except.error.injEq] at h
    exact h.symm
  | ok u => simp [liftExternal] at h

/-- `coreFieldsEq` is transitive. -/
theorem coreFieldsEq_trans {a b c : Group} (h1 : coreFieldsEq a b)
    (h2 : coreFieldsEq b c) : coreFieldsEq a c :=
  ⟨h1.1.trans h2.1, h1.2.1.trans h2.2.1, h1.2.2.1.trans h2.2.2.1,
    h1.2.2.2.trans h2.2.2.2⟩

/-- The name branch preserves id, group type, channel type and validation
endpoint. -/
theorem applyNameUpdate_core (params : GroupUpdateParams) (g g' : Group)
    (h : applyNameUpdate params g = Except.ok g') : coreFieldsEq g' g := by
  cases hn : params.name with
  | none =>
    simp only [applyNameUpdate, hn, Except.ok.injEq] at h
    subst h
    exact ⟨rfl, rfl, rfl, rfl⟩
  | some n =>
    by_cases hv : isValidGroupName (trimSpace n) = false
    · simp [applyNameUpdate, hn, hv] at h
    · simp [applyNameUpdate, hn, hv] at h
      subst h
      exact ⟨rfl, rfl, rfl, rfl⟩

/-- The display-name branch preserves the core fields. -/
theorem applyDisplayNameUpdate_core (params : GroupUpdateParams) (g : Group) :
    coreFieldsEq (applyDisplayNameUpdate params g) g := by
  cases hn : params.displayName <;>
    simp [applyDisplayNameUpdate, hn, coreFieldsEq]

/-- The description branch preserves the core fields. -/
theorem applyDescriptionUpdate_core (params : GroupUpdateParams) (g : Group) :
    coreFieldsEq (applyDescriptionUpdate params g) g := by
  cases hn : params.description <;>
    simp [applyDescriptionUpdate, hn, coreFieldsEq]

/-- The upstreams branch preserves the core fields. -/
theorem applyUpstreamsUpdate_core (params : GroupUpdateParams) (g g' : Group)
    (h : applyUpstreamsUpdate params g = Except.ok g') : coreFieldsEq g' g := by
  by_cases hup : params.hasUpstreams = true
  · cases hu : validateAndCleanUpstreams params.upstreams with
    | error e2 => simp [applyUpstreamsUpdate, hup, hu] at h
    | ok ds =>
      simp [applyUpstreamsUpdate, hup, hu] at h
      subst h
      exact ⟨rfl, rfl, rfl, rfl⟩
  · simp [applyUpstreamsUpdate, hup] at h
    subst h
    exact ⟨rfl, rfl, rfl, rfl⟩

/-- Classification of every failure of `updatePipeline`: it is the name
check, the reference gate applied to a group agreeing with the loaded group on
the core fields, or one of the errors of the later steps — in particular a
`subGroupReferenced` failure can only come from the gate. -/
theorem updatePipeline_error_origin (registry : List String) (db : AdminDB)
    (params : GroupUpdateParams) (g0 : Group) (cR hR sR : Except Unit Unit)
    (e : GroupError)
    (h : updatePipeline registry db params g0 cR hR sR = Except.error e) :
    applyNameUpdate params g0 = Except.error e ∨
    e = GroupError.invalidUpstreams ∨
    (∃ g3, coreFieldsEq g3 g0 ∧
      subGroupReferenceGate db params g3 = Except.error e) ∨
    e = GroupError.invalidChannelType ∨ e = GroupError.testModelEmpty ∨
    e = GroupError.aggregateNoModelRedirect ∨
    e = GroupError.invalidModelRedirect ∨ e = GroupError.invalidTestPath ∨
    e = GroupError.configError ∨ e = GroupError.headerRulesError ∨
    e = GroupError.dbError := by
  cases h1 : applyNameUpdate params g0 with
  | error e1 =>
    simp only [updatePipeline, h1, exBind, Except.error.injEq] at h
    subst h
    exact Or.inl rfl
  | ok g1 =>
    cases h3 : applyUpstreamsUpdate params
        (applyDescriptionUpdate params (applyDisplayNameUpdate params g1)) with
    | error e3 =>
      simp only [updatePipeline, h1, h3, exBind, Except.error.injEq] at h
      subst h
      exact Or.inr (Or.inl (applyUpstreamsUpdate_error_inv _ _ _ h3))
    | ok g3 =>
      have hcore : coreFieldsEq g3 g0 :=
        coreFieldsEq_trans (applyUpstreamsUpdate_core _ _ _ h3)
          (coreFieldsEq_trans (applyDescriptionUpdate_core _ _)
            (coreFieldsEq_trans (applyDisplayNameUpdate_core _ _)
              (applyNameUpdate_core _ _ _ h1)))
      cases hg : subGroupReferenceGate db params g3 with
      | error e4 =>
        simp only [updatePipeline, h1, h3, hg, exBind, Except.error.injEq] at h
        subst h
        exact Or.inr (Or.inr (Or.inl ⟨g3, hcore, hg⟩))
      | ok u4 =>
        cases h4 : applyChannelTypeUpdate registry params g3 with
        | error e5 =>
          simp only [updatePipeline, h1, h3, hg, h4, exBind,
            Except.error.injEq] at h
          subst h
          have := applyChannelTypeUpdate_error_inv _ _ _ _ h4
          simp [this]
        | ok g4 =>
          cases h6 : applyTestModelUpdate params (applySortUpdate params g4) with
          | error e6 =>
            simp only [updatePipeline, h1, h3, hg, h4, h6, exBind,
              Except.error.injEq] at h
            subst h
            have := applyTestModelUpdate_error_inv _ _ _ h6
            simp [this]
          | ok g6 =>
            cases h7 : applyModelRedirectUpdate params g6 with
            | error e7 =>
              simp only [updatePipeline, h1, h3, hg, h4, h6, h7, exBind,
                Except.error.injEq] at h
              subst h
              rcases applyModelRedirectUpdate_error_inv _ _ _ h7 with h2 | h2 <;>
                simp [h2]
            | ok g7 =>
              cases h9 : applyValidationEndpointUpdate params
                  (applyStrictUpdate params g7) with
              | error e9 =>
                simp only [updatePipeline, h1, h3, hg, h4, h6, h7, h9, exBind,
                  Except.error.injEq] at h
                subst h
                have := applyValidationEndpointUpdate_error_inv _ _ _ h9
                simp [this]
              | ok g9 =>
                cases cRc : cR with
                | error u =>
                  simp only [updatePipeline, h1, h3, hg, h4, h6, h7, h9, cRc,
                    liftExternal, exBind, Except.error.injEq] at h
                  subst h
                  simp
                | ok u =>
                  cases hRc : hR with
                  | error v =>
                    simp only [updatePipeline, h1, h3, hg, h4, h6, h7, h9, cRc,
                      hRc, liftExternal, exBind, Except.error.injEq] at h
                    subst h
                    simp
                  | ok v =>
                    cases sRc : sR with
                    | error w =>
                      simp only [updatePipeline, h1, h3, hg, h4, h6, h7, h9,
                        cRc, hRc, sRc, liftExternal, exBind,
                        Except.error.injEq] at h
                      subst h
                      simp
                    | ok w =>
                      simp [updatePipeline, h1, h3, hg, h4, h6, h7, h9,
                        cRc, hRc, sRc, liftExternal, exBind] at h

/-- C7: `isValidGroupName` holds exactly on strings of 1 to 100 characters
from `[a-z0-9_-]` (so the empty name is rejected); `CreateGroup` fails with
the invalid-group-name validation error exactly when the trimmed name is
invalid, and so does `UpdateGroup` whenever a new name is supplied (given the
group row loads). -/
theorem groupName_validation (n : String) (registry : List String)
    (params : GroupCreateParams) (cR hR dR : Except Unit Unit) (db : AdminDB)
    (id : Nat) (uparams : GroupUpdateParams) (ucR uhR usR : Except Unit Unit)
    (g : Group) (hg : db.groups id = some g) :
    (isValidGroupName n = true ↔
      (1 ≤ n.length ∧ n.length ≤ 100 ∧ ∀ c ∈ n.data, isGroupNameChar c = true))
    ∧ (createGroup registry params cR hR dR =
          Except.error GroupError.invalidGroupName ↔
        isValidGroupName (trimSpace params.name) = false)
    ∧ (∀ nm, uparams.name = some nm →
        ((updateGroup registry db id uparams ucR uhR usR).1 =
            Except.error GroupError.invalidGroupName ↔
          isValidGroupName (trimSpace nm) = false)) := by
  refine ⟨?_, ?_, ?_⟩
  · by_cases hn : n = ""
    · subst hn
      simp [isValidGroupName]
    · simp [isValidGroupName, hn, List.all_eq_true, and_assoc]
  · constructor
    · intro h
      rcases createGroup_error_cases registry params cR hR dR _ h with
        ⟨_, hh⟩ | hc | hc | hc | hc | hc | hc | hc | hc | hc | hc
      · exact hh
      all_goals exact GroupError.noConfusion hc
    · intro hv
      simp [createGroup, hv]
  · intro nm hnm
    constructor
    · intro h
      have hp : updatePipeline registry db uparams g ucR uhR usR =
          Except.error GroupError.invalidGroupName := by
        cases hpi : updatePipeline registry db uparams g ucR uhR usR with
        | error e2 =>
          simp only [updateGroup, hg, hpi] at h
          simp only [Except.error.injEq] at h
          subst h
          exact rfl
        | ok g2 => simp [updateGroup, hg, hpi] at h
      rcases updatePipeline_error_origin registry db uparams g ucR uhR usR _ hp with
        h1 | h2 | ⟨g3, hcore, hgate⟩ | hc | hc | hc | hc | hc | hc | hc | hc
      · obtain ⟨_, n2, hn2, hv2⟩ := applyNameUpdate_error_inv _ _ _ h1
        rw [hnm] at hn2
        obtain rfl : nm = n2 := by injection hn2
        exact hv2
      · exact GroupError.noConfusion h2
      · obtain ⟨he, _, _⟩ := subGroupReferenceGate_error_inv _ _ _ _ hgate
        exact GroupError.noConfusion he
      all_goals exact GroupError.noConfusion hc
    · intro hv
      have h1 : applyNameUpdate uparams g =
          Except.error GroupError.invalidGroupName := by
        simp [applyNameUpdate, hnm, hv]
      have hp : updatePipeline registry db uparams g ucR uhR usR =
          Except.error GroupError.invalidGroupName := by
        simp [updatePipeline, exBind, h1]
      simp [updateGroup, hg, hp]

/-- C7 (witness): instantiating `groupName_validation`, updating group 7 with
the name `"BAD NAME"` (space and capitals) fails with the invalid-group-name
error. -/
theorem groupName_validation_witness :
    (updateGroup channelRegistry3 adminDB7 7 uparamsBadName (Except.ok ())
        (Except.ok ()) (Except.ok ())).1 =
      Except.error GroupError.invalidGroupName :=
  ((groupName_validation "abc" channelRegistry3 paramsBlankTestModel
      (Except.ok ()) (Except.ok ()) (Except.ok ()) adminDB7 7 uparamsBadName
      (Except.ok ()) (Except.ok ()) (Except.ok ()) group7 rfl).2.2
    "BAD NAME" rfl).mpr (by decide)

/-- C10: for a loaded non-aggregate group referenced as a sub-group by at
least one aggregate group, an update supplying a channel type or validation
endpoint that differs (after trimming) from the current value fails with a
validation error and leaves the database unchanged; supplying the current
values, or updating a group referenced by no aggregate group, is never
rejected by the sub-group reference check. -/
theorem updateGroup_subgroup_reference_check (registry : List String)
    (db : AdminDB) (id : Nat) (params : GroupUpdateParams)
    (cR hR sR : Except Unit Unit) (g : Group) (hg : db.groups id = some g)
    (hag : g.groupType ≠ "aggregate") :
    (0 < countAggregateGroupsUsingSubGroup db g.id →
      ((∃ ct, params.channelType = some ct ∧ trimSpace ct ≠ g.channelType) ∨
       (∃ ve, params.validationEndpoint = some ve ∧
         trimSpace ve ≠ g.validationEndpoint)) →
      ∃ e, (updateGroup registry db id params cR hR sR).1 = Except.error e ∧
        e.isValidation = true ∧
        (updateGroup registry db id params cR hR sR).2 = db)
    ∧ ((∀ ct, params.channelType = some ct → trimSpace ct = g.channelType) →
       (∀ ve, params.validationEndpoint = some ve →
         trimSpace ve = g.validationEndpoint) →
       (updateGroup registry db id params cR hR sR).1 ≠
         Except.error GroupError.subGroupReferenced)
    ∧ (countAggregateGroupsUsingSubGroup db g.id = 0 →
       (updateGroup registry db id params cR hR sR).1 ≠
         Except.error GroupError.subGroupReferenced) := by
  refine ⟨?_, ?_, ?_⟩
  · intro hcnt hdiff
    cases h1 : applyNameUpdate params g with
    | error e1 =>
      obtain ⟨he, _⟩ := applyNameUpdate_error_inv _ _ _ h1
      subst he
      have hp : updatePipeline registry db params g cR hR sR =
          Except.error GroupError.invalidGroupName := by
        simp [updatePipeline, exBind, h1]
      exact ⟨GroupError.invalidGroupName, by simp [updateGroup, hg, hp], rfl,
        by simp [updateGroup, hg, hp]⟩
    | ok g1 =>
      cases h3 : applyUpstreamsUpdate params
          (applyDescriptionUpdate params (applyDisplayNameUpdate params g1)) with
      | error e3 =>
        have he := applyUpstreamsUpdate_error_inv _ _ _ h3
        subst he
        have hp : updatePipeline registry db params g cR hR sR =
            Except.error GroupError.invalidUpstreams := by
          simp [updatePipeline, exBind, h1, h3]
        exact ⟨GroupError.invalidUpstreams, by simp [updateGroup, hg, hp], rfl,
          by simp [updateGroup, hg, hp]⟩
      | ok g3 =>
        have hcore : coreFieldsEq g3 g :=
          coreFieldsEq_trans (applyUpstreamsUpdate_core _ _ _ h3)
            (coreFieldsEq_trans (applyDescriptionUpdate_core _ _)
              (coreFieldsEq_trans (applyDisplayNameUpdate_core _ _)
                (applyNameUpdate_core _ _ _ h1)))
        have hag3 : g3.groupType ≠ "aggregate" := by
          rw [hcore.2.1]; exact hag
        have hcnt3 : 0 < countAggregateGroupsUsingSubGroup db g3.id := by
          rw [hcore.1]; exact hcnt
        have hdiff3 : (∃ ct, params.channelType = some ct ∧
            g3.channelType ≠ trimSpace ct) ∨
            (∃ ve, params.validationEndpoint = some ve ∧
              g3.validationEndpoint ≠ trimSpace ve) := by
          rcases hdiff with ⟨ct, hct, hne⟩ | ⟨ve, hve, hnev⟩
          · exact Or.inl ⟨ct, hct, by rw [hcore.2.2.1]; exact hne.symm⟩
          · exact Or.inr ⟨ve, hve, by rw [hcore.2.2.2]; exact hnev.symm⟩
        have hgate := subGroupReferenceGate_fires db params g3 hag3 hcnt3 hdiff3
        have hp : updatePipeline registry db params g cR hR sR =
            Except.error GroupError.subGroupReferenced := by
          simp [updatePipeline, exBind, h1, h3, hgate]
        exact ⟨GroupError.subGroupReferenced, by simp [updateGroup, hg, hp],
          rfl, by simp [updateGroup, hg, hp]⟩
  · intro hmct hmve hcontra
    have hp : updatePipeline registry db params g cR hR sR =
        Except.error GroupError.subGroupReferenced := by
      cases hpi : updatePipeline registry db params g cR hR sR with
      | error e2 =>
        simp only [updateGroup, hg, hpi] at hcontra
        simp only [Except.error.injEq] at hcontra
        subst hcontra
        exact rfl
      | ok g2 => simp [updateGroup, hg, hpi] at hcontra
    rcases updatePipeline_error_origin registry db params g cR hR sR _ hp with
      h1 | h2 | ⟨g3, hcore, hgate⟩ | hc | hc | hc | hc | hc | hc | hc | hc
    · obtain ⟨he, _⟩ := applyNameUpdate_error_inv _ _ _ h1
      exact GroupError.noConfusion he
    · exact GroupError.noConfusion h2
    · obtain ⟨_, hcnt2, hdiff2⟩ := subGroupReferenceGate_error_inv _ _ _ _ hgate
      rcases hdiff2 with ⟨ct, hct, hne⟩ | ⟨ve, hve, hnev⟩
      · exact hne (by rw [hcore.2.2.1]; exact (hmct ct hct).symm)
      · exact hnev (by rw [hcore.2.2.2]; exact (hmve ve hve).symm)
    all_goals exact GroupError.noConfusion hc
  · intro hcnt0 hcontra
    have hp : updatePipeline registry db params g cR hR sR =
        Except.error GroupError.subGroupReferenced := by
      cases hpi : updatePipeline registry db params g cR hR sR with
      | error e2 =>
        simp only [updateGroup, hg, hpi] at hcontra
        simp only [Except.error.injEq] at hcontra
        subst hcontra
        exact rfl
      | ok g2 => simp [updateGroup, hg, hpi] at hcontra
    rcases updatePipeline_error_origin registry db params g cR hR sR _ hp with
      h1 | h2 | ⟨g3, hcore, hgate⟩ | hc | hc | hc | hc | hc | hc | hc | hc
    · obtain ⟨he, _⟩ := applyNameUpdate_error_inv _ _ _ h1
      exact GroupError.noConfusion he
    · exact GroupError.noConfusion h2
    · obtain ⟨_, hcnt2, _⟩ := subGroupReferenceGate_error_inv _ _ _ _ hgate
      rw [hcore.1] at hcnt2
      omega
    all_goals exact GroupError.noConfusion hc

/-- C10 (witness): instantiating `updateGroup_subgroup_reference_check`,
updating referenced group 5 with a different channel type fails with a
validation error and leaves the database unchanged. -/
theorem updateGroup_subgroup_reference_check_witness :
    ∃ e, (updateGroup channelRegistry3 adminDBRef 5 uparamsNewChannel
        (Except.ok ()) (Except.ok ()) (Except.ok ())).1 = Except.error e ∧
      e.isValidation = true ∧
      (updateGroup channelRegistry3 adminDBRef 5 uparamsNewChannel
        (Except.ok ()) (Except.ok ()) (Except.ok ())).2 = adminDBRef :=
  (updateGroup_subgroup_reference_check channelRegistry3 adminDBRef 5
      uparamsNewChannel (Except.ok ()) (Except.ok ()) (Except.ok ()) group5
      rfl (by decide)).1 (by decide)
    (Or.inl ⟨"anthropic", rfl, by decide⟩)

/-- C2: in `DeleteGroup`, if the removal of the group's key ids from the
key-pool store fails, the transaction is rolled back — an error is returned
with the database (group row, API keys, sub-group edges) and the store
unchanged; and the commit is reached only when the removal succeeded or the
group owned no keys, upon which the group row, its keys and its edges are
gone. -/
theorem deleteGroup_store_atomicity {σ : Type}
    (removeKeysFromStore : σ → Nat → List Nat → Option σ) (db : AdminDB)
    (store : σ) (id : Nat) (commitOk : Bool) (g : Group)
    (hg : db.groups id = some g) :
    (keyIDsOf db id ≠ [] →
      removeKeysFromStore store id (keyIDsOf db id) = none →
      deleteGroup removeKeysFromStore db store id commitOk =
        (Except.error GroupError.deleteGroupCache, db, store))
    ∧ ((deleteGroup removeKeysFromStore db store id commitOk).1 = Except.ok () →
      (keyIDsOf db id = [] ∨
        (removeKeysFromStore store id (keyIDsOf db id)).isSome = true) ∧
      (deleteGroup removeKeysFromStore db store id commitOk).2.1.groups id = none ∧
      (deleteGroup removeKeysFromStore db store id commitOk).2.1.apiKeys =
        db.apiKeys.filter (fun k => decide (¬ k.groupID = id)) ∧
      (deleteGroup removeKeysFromStore db store id commitOk).2.1.subGroupEdges =
        db.subGroupEdges.filter
          (fun e => decide (¬(e.groupID = id ∨ e.subGroupID = id)))) := by
  constructor
  · intro hne hrem
    simp [deleteGroup, hg, hne, hrem]
  · intro hok
    by_cases hne : keyIDsOf db id ≠ []
    · cases hrem : removeKeysFromStore store id (keyIDsOf db id) with
      | none => simp [deleteGroup, hg, hne, hrem] at hok
      | some store2 =>
        cases commitOk with
        | false => simp [deleteGroup, hg, hne, hrem] at hok
        | true =>
          refine ⟨Or.inr (by simp [hrem]), ?_, ?_, ?_⟩
          · simp [deleteGroup, hg, hne, hrem]
          · simp [deleteGroup, hg, hne, hrem]
          · simp [deleteGroup, hg, hne, hrem]
    · cases commitOk with
      | false => simp [deleteGroup, hg, hne] at hok
      | true =>
        refine ⟨Or.inl (not_not.mp hne), ?_, ?_, ?_⟩
        · simp [deleteGroup, hg, hne]
        · simp [deleteGroup, hg, hne]
        · simp [deleteGroup, hg, hne]

/-- C2 (witness): instantiating `deleteGroup_store_atomicity` on a database
holding group 3 with key 11 and a store removal that always fails: the delete
returns the cache error and both the database and the store are unchanged. -/
theorem deleteGroup_store_atomicity_witness :
    deleteGroup removeAlwaysFails adminDBDel () 3 true =
      (Except.error GroupError.deleteGroupCache, adminDBDel, ()) :=
  (deleteGroup_store_atomicity removeAlwaysFails adminDBDel () 3 true group3
      rfl).1 (by decide) rfl

end AiManager
